import Mathlib

/-!
Verification of the dxtrade-python-sdk session and streaming layer.

This file gives a shallow embedding, in Lean, of the parts of the SDK the
specification talks about: the retry/backoff calculator and token-bucket
rate limiter (`src/dxtrade/utils.py`), the session authentication handler
(`src/dxtrade/auth.py`), the idempotency slice of the HTTP request pipeline
(`src/dxtrade/http.py`), the minimal transport client
(`src/dxtrade/transport.py`), the push client message handling and reconnect
loop (`src/dxtrade/push.py`), and the dual stream manager reconnect loop
(`src/dxtrade/websocket/stream_manager.py`).

Python floats for times, delays and token counts are modeled as rationals;
`time.time()` and `time.monotonic()` become explicit `now` parameters, and
`random.uniform(0, x)` becomes `u * x` for a parameter `0 ≤ u ≤ 1`.
Network responses are supplied as explicit oracle arguments.
-/

/-! ## RetryConfig (src/dxtrade/utils.py, lines 337-379) -/

/-- Embedding of `RetryConfig.__init__` defaults (utils.py lines 340-361). -/
structure RetryConfig where
  max_retries : Nat := 3
  base_delay : ℚ := 3/10
  max_delay : ℚ := 60
  backoff_factor : ℚ := 2
  jitter : Bool := true
deriving Repr, DecidableEq

/-- Embedding of `RetryConfig.calculate_delay` (utils.py lines 363-379):
`delay = base_delay * backoff_factor ** attempt`, capped at `max_delay`;
with jitter enabled the result is `random.uniform(0, delay)`, modeled here
as `u * delay` for the random draw `u ∈ [0, 1]`. -/
def RetryConfig.calculate_delay (c : RetryConfig) (attempt : Nat) (u : ℚ) : ℚ :=
  let delay := c.base_delay * c.backoff_factor ^ attempt
  let delay := min delay c.max_delay
  if c.jitter then u * delay else delay

/-- The capped delay before jitter, i.e. the value of the local `delay`
variable after utils.py line 373. -/
def RetryConfig.capped_delay (c : RetryConfig) (attempt : Nat) : ℚ :=
  min (c.base_delay * c.backoff_factor ^ attempt) c.max_delay

/-- Expected value of `calculate_delay` over the uniform draw: with jitter
the delay is uniform on `[0, capped_delay]` so the mean is `capped_delay / 2`;
without jitter it is `capped_delay` itself. -/
def RetryConfig.expected_delay (c : RetryConfig) (attempt : Nat) : ℚ :=
  if c.jitter then c.capped_delay attempt / 2 else c.capped_delay attempt

/-! ## RateLimiter (src/dxtrade/utils.py, lines 30-77) -/

/-- State of the token bucket (utils.py lines 33-44): `tokens` starts at
`burst` and `burst` defaults to `rate` via the Python-falsy expression
`burst or rate` (so `burst=0` or `burst=None` both fall back to `rate`). -/
structure RateLimiter where
  rate : ℚ
  burst : ℚ
  tokens : ℚ
  last_update : ℚ
deriving Repr, DecidableEq

/-- Embedding of `RateLimiter.__init__` (utils.py lines 33-44); `t0` is the
value of `time.monotonic()` at construction. -/
def RateLimiter.init (rate : ℚ) (burst : Option ℚ) (t0 : ℚ) : RateLimiter :=
  let b := match burst with
    | none => rate
    | some v => if v = 0 then rate else v
  { rate := rate, burst := b, tokens := b, last_update := t0 }

/-- The error raised on utils.py lines 72-77. `retry_after` is
`int(wait_time) + 1` and `remaining` is `int(self.tokens)`; for the
non-negative values that occur, Python `int()` truncation is `⌊·⌋`. -/
structure RateLimitError where
  retry_after : ℤ
  limit : ℚ
  remaining : ℤ
deriving Repr, DecidableEq

/-- Embedding of `RateLimiter.acquire` (utils.py lines 46-77). The refill
and `last_update` assignment happen before the availability check, so the
returned state reflects them even when the call raises; the raised error,
if any, is returned alongside. `now` is `time.monotonic()` at the call. -/
def RateLimiter.acquire (rl : RateLimiter) (now : ℚ) (tokens : ℚ := 1) :
    RateLimiter × Option RateLimitError :=
  let elapsed := now - rl.last_update
  let newTokens := min rl.burst (rl.tokens + elapsed * rl.rate)
  if tokens ≤ newTokens then
    ({ rl with tokens := newTokens - tokens, last_update := now }, none)
  else
    let wait := (tokens - newTokens) / rl.rate
    ({ rl with tokens := newTokens, last_update := now },
     some { retry_after := ⌊wait⌋ + 1, limit := rl.rate, remaining := ⌊newTokens⌋ })

/-- Run a sequence of single-token `acquire` calls all at the same instant
`now`, returning the final state and the per-call outcomes (`true` when the
call succeeded). -/
def RateLimiter.acquireRun (rl : RateLimiter) (now : ℚ) : Nat → RateLimiter × List Bool
  | 0 => (rl, [])
  | n + 1 =>
    let (rl1, err) := rl.acquire now
    let (rl2, rest) := rl1.acquireRun now n
    (rl2, err.isNone :: rest)

/-! ## Theorems for the backoff calculator (claim C9) -/

theorem RetryConfig.calculate_delay_eq (c : RetryConfig) (n : Nat) (u : ℚ) :
    c.calculate_delay n u = if c.jitter then u * c.capped_delay n else c.capped_delay n := rfl

theorem RetryConfig.capped_delay_nonneg (c : RetryConfig)
    (hb : 0 ≤ c.base_delay) (hf : 1 ≤ c.backoff_factor) (hm : 0 ≤ c.max_delay)
    (n : Nat) : 0 ≤ c.capped_delay n := by
  refine le_min (mul_nonneg hb (pow_nonneg ?_ n)) hm
  exact le_trans zero_le_one hf

theorem RetryConfig.capped_delay_mono (c : RetryConfig)
    (hb : 0 ≤ c.base_delay) (hf : 1 ≤ c.backoff_factor)
    (n : Nat) : c.capped_delay n ≤ c.capped_delay (n + 1) := by
  refine min_le_min ?_ le_rfl
  exact mul_le_mul_of_nonneg_left (pow_le_pow_right₀ hf (Nat.le_succ n)) hb

/-- C9: for every attempt number `n`, the delay computed by
`RetryConfig.calculate_delay` never exceeds the configured `max_delay`
(whether jitter is enabled or not, for any jitter draw `u ∈ [0,1]`), and the
expected delay is monotonically non-decreasing in the attempt number when the
backoff factor is at least 1. -/
theorem retry_delay_bounded_and_monotone (c : RetryConfig) (n : Nat) (u : ℚ)
    (hb : 0 ≤ c.base_delay) (hf : 1 ≤ c.backoff_factor) (hm : 0 ≤ c.max_delay)
    (hu0 : 0 ≤ u) (hu1 : u ≤ 1) :
    c.calculate_delay n u ≤ c.max_delay ∧
    c.expected_delay n ≤ c.expected_delay (n + 1) := by
  have hnn := c.capped_delay_nonneg hb hf hm n
  have hmono := c.capped_delay_mono hb hf n
  constructor
  · rw [RetryConfig.calculate_delay_eq]
    have hcap : c.capped_delay n ≤ c.max_delay := min_le_right _ _
    by_cases hj : c.jitter
    · simp only [hj, if_true]
      calc u * c.capped_delay n ≤ 1 * c.capped_delay n :=
            mul_le_mul_of_nonneg_right hu1 hnn
        _ = c.capped_delay n := one_mul _
        _ ≤ c.max_delay := hcap
    · simpa [hj] using hcap
  · unfold RetryConfig.expected_delay
    by_cases hj : c.jitter
    · simp only [hj, if_true]
      linarith
    · simpa [hj] using hmono

/-- Witness for C9 at the default configuration, attempt 0, jitter draw 1/2. -/
theorem retry_delay_bounded_and_monotone_witness :
    RetryConfig.calculate_delay ⟨3, 3/10, 60, 2, true⟩ 0 (1/2) ≤ (60 : ℚ) ∧
    RetryConfig.expected_delay ⟨3, 3/10, 60, 2, true⟩ 0 ≤
      RetryConfig.expected_delay ⟨3, 3/10, 60, 2, true⟩ 1 :=
  retry_delay_bounded_and_monotone ⟨3, 3/10, 60, 2, true⟩ 0 (1/2)
    (by norm_num) (by norm_num) (by norm_num) (by norm_num) (by norm_num)

/-! ## Theorems for the rate limiter (claim C5) -/

theorem RateLimiter.acquire_tokens_le_burst (rl : RateLimiter) (now n : ℚ)
    (hn : 0 ≤ n) : ((rl.acquire now n).1).tokens ≤ rl.burst := by
  unfold RateLimiter.acquire
  by_cases h : n ≤ min rl.burst (rl.tokens + (now - rl.last_update) * rl.rate)
  · simp only [h, if_pos]
    have := min_le_left rl.burst (rl.tokens + (now - rl.last_update) * rl.rate)
    linarith
  · simp only [h, if_neg, not_false_iff]
    exact min_le_left _ _

theorem RateLimiter.acquireRun_full (R C t0 : ℚ) (tok : ℚ) (k : Nat)
    (hk : (k : ℚ) ≤ tok) (htok : tok ≤ C) :
    RateLimiter.acquireRun ⟨R, C, tok, t0⟩ t0 k =
      (⟨R, C, tok - k, t0⟩, List.replicate k true) := by
  induction k generalizing tok with
  | zero => simp [RateLimiter.acquireRun]
  | succ m ih =>
    have hcast : ((m : ℚ) + 1) ≤ tok := by exact_mod_cast hk
    have h1 : (1 : ℚ) ≤ tok := by
      have : (0 : ℚ) ≤ (m : ℚ) := Nat.cast_nonneg m
      linarith
    have hmin : min C (tok + (t0 - t0) * R) = tok := by
      rw [sub_self, zero_mul, add_zero]
      exact min_eq_right htok
    have hstep : RateLimiter.acquire ⟨R, C, tok, t0⟩ t0 1 =
        (⟨R, C, tok - 1, t0⟩, none) := by
      unfold RateLimiter.acquire
      simp only [hmin]
      rw [if_pos h1]
    have hrec := ih (tok - 1) (by linarith) (by linarith)
    simp only [RateLimiter.acquireRun, hstep, hrec, Option.isNone_none,
      List.replicate_succ]
    have hq : tok - 1 - (m : ℚ) = tok - ((m + 1 : ℕ) : ℚ) := by
      push_cast
      ring
    rw [hq]

/-- C5: for a token bucket built with burst capacity `C ≥ 1` and rate `R > 0`,
the first `C` instantaneous `acquire` calls all succeed; the `(C+1)`-th
instantaneous call fails, returning (not blocking on) a `RateLimitError`
carrying `retry_after = ⌊1/R⌋ + 1`; an `acquire` issued `d ≥ 1/R` seconds
later succeeds again; and a single `acquire` never leaves the stored token
count above the burst capacity. -/
theorem rate_limiter_burst_and_refill (C : Nat) (R t0 d : ℚ)
    (rl : RateLimiter) (now n : ℚ)
    (hC : 1 ≤ C) (hR : 0 < R) (hd : 1 / R ≤ d) (hn : 0 ≤ n) :
    (RateLimiter.acquireRun (RateLimiter.init R (some C) t0) t0 C).2 =
        List.replicate C true ∧
    ((RateLimiter.acquireRun (RateLimiter.init R (some C) t0) t0 C).1.acquire t0).2 =
        some ⟨⌊1 / R⌋ + 1, R, 0⟩ ∧
    ((((RateLimiter.acquireRun (RateLimiter.init R (some C) t0) t0 C).1.acquire
        t0).1.acquire (t0 + d)).2 = none) ∧
    ((rl.acquire now n).1).tokens ≤ rl.burst := by
  have hCQ : (1 : ℚ) ≤ (C : ℚ) := by exact_mod_cast hC
  have hCne : (C : ℚ) ≠ 0 := by linarith
  have hinit : RateLimiter.init R (some (C : ℚ)) t0 = ⟨R, C, C, t0⟩ := by
    unfold RateLimiter.init
    simp [hCne]
  have hrun := RateLimiter.acquireRun_full R (C : ℚ) t0 (C : ℚ) C le_rfl le_rfl
  have hrunState : (RateLimiter.acquireRun (RateLimiter.init R (some C) t0) t0 C).1 =
      ⟨R, C, 0, t0⟩ := by
    rw [hinit, hrun]
    simp
  have hmin0 : min (C : ℚ) ((0 : ℚ) + (t0 - t0) * R) = 0 := by
    rw [sub_self, zero_mul, add_zero]
    exact min_eq_right (by linarith)
  have hfail : (RateLimiter.acquire ⟨R, (C : ℚ), 0, t0⟩ t0).2 =
      some ⟨⌊1 / R⌋ + 1, R, 0⟩ := by
    unfold RateLimiter.acquire
    simp only [hmin0]
    rw [if_neg (by norm_num)]
    simp
  have hfailState : (RateLimiter.acquire ⟨R, (C : ℚ), 0, t0⟩ t0).1 =
      ⟨R, C, 0, t0⟩ := by
    unfold RateLimiter.acquire
    simp only [hmin0]
    rw [if_neg (by norm_num)]
  refine ⟨?_, ?_, ?_, rl.acquire_tokens_le_burst now n hn⟩
  · rw [hinit, hrun]
  · rw [hrunState, hfail]
  · rw [hrunState, hfailState]
    have hdR : (1 : ℚ) ≤ d * R := by
      have := mul_le_mul_of_nonneg_right hd (le_of_lt hR)
      rwa [one_div, inv_mul_cancel₀ (ne_of_gt hR)] at this
    unfold RateLimiter.acquire
    dsimp only
    have harith : (0 : ℚ) + (t0 + d - t0) * R = d * R := by ring
    rw [harith]
    have hge : (1 : ℚ) ≤ min (C : ℚ) (d * R) := le_min hCQ hdR
    rw [if_pos hge]

/-- Witness for C5 with capacity 2, rate 1, start time 0, wait 1. -/
theorem rate_limiter_burst_and_refill_witness :
    (RateLimiter.acquireRun (RateLimiter.init 1 (some 2) 0) 0 2).2 =
        List.replicate 2 true ∧
    ((RateLimiter.acquireRun (RateLimiter.init 1 (some 2) 0) 0 2).1.acquire 0).2 =
        some ⟨⌊(1 : ℚ) / 1⌋ + 1, 1, 0⟩ ∧
    ((((RateLimiter.acquireRun (RateLimiter.init 1 (some 2) 0) 0 2).1.acquire
        0).1.acquire (0 + 1)).2 = none) ∧
    (((RateLimiter.init 1 (some 2) 0).acquire 0 1).1).tokens ≤
      (RateLimiter.init 1 (some 2) 0).burst :=
  rate_limiter_burst_and_refill 2 1 0 1 (RateLimiter.init 1 (some 2) 0) 0 1
    (by norm_num) (by norm_num) (by norm_num) (by norm_num)

/-! ## SessionHandler (src/dxtrade/auth.py, lines 182-311)

The handler state is the triple of instance attributes set in
`SessionHandler.__init__` (auth.py lines 197-199). Python truthiness of the
optional fields is modeled explicitly: an `Optional[str]` is falsy when it is
`None` or empty, an `Optional[float]` when it is `None` or `0`. The several
`time.time()` reads inside one call are modeled as a single `now`. -/

structure SessionState where
  session_token : Option String
  token_expires_at : Option ℚ
  last_login : Option ℚ
deriving Repr, DecidableEq

/-- Python truthiness of `Optional[str]`. -/
def pyTruthyStr : Option String → Bool
  | none => false
  | some s => !s.isEmpty

/-- Python truthiness of `Optional[float]`. -/
def pyTruthyFloat : Option ℚ → Bool
  | none => false
  | some v => v != 0

/-- Embedding of `SessionHandler._is_token_expired` (auth.py lines 266-279). -/
def SessionState.is_token_expired (s : SessionState) (now : ℚ) : Bool :=
  if !pyTruthyFloat s.token_expires_at || !pyTruthyFloat s.last_login then true
  else if 3600 < now - s.last_login.getD 0 then true
  else decide (s.token_expires_at.getD 0 ≤ now)

/-- What the mocked `POST /login` returns: `http_error` models an
`httpx.HTTPError` from the request or `raise_for_status`, the other fields are
the JSON body consumed via `data.get(...)` (auth.py lines 246-257). -/
structure LoginResponse where
  http_error : Bool
  sessionToken : Option String
  message : Option String
deriving Repr, DecidableEq

inductive AuthError
  | authenticationError (msg : String)
deriving Repr, DecidableEq

/-- Embedding of `SessionHandler._refresh_session_token` (auth.py lines
230-264): the token is assigned from the response before the emptiness check,
so a falsy token leaves `session_token` overwritten but expiry untouched;
on success `_token_expires_at = now + 3600 - 300` and `_last_login = now`. -/
def SessionState.refresh_session_token (s : SessionState) (now : ℚ)
    (resp : LoginResponse) : SessionState × Option AuthError :=
  if resp.http_error then
    (s, some (.authenticationError "Login request failed"))
  else
    let s1 := { s with session_token := resp.sessionToken }
    if !pyTruthyStr resp.sessionToken then
      (s1, some (.authenticationError
        (resp.message.getD "No session token in response")))
    else
      ({ session_token := resp.sessionToken,
         token_expires_at := some (now + 3600 - 300),
         last_login := some now }, none)

/-- The two headers set by `SessionHandler.authenticate`
(auth.py lines 226-227). -/
structure AuthHeaders where
  x_auth_token : String
  authorization : String
deriving Repr, DecidableEq

/-- Embedding of `SessionHandler.authenticate` (auth.py lines 201-228).
The returned `Bool` records whether a login (`POST /login`) was performed;
`resp` is the oracle for that request, consumed only when it happens. -/
def SessionState.authenticate (s : SessionState) (now : ℚ) (resp : LoginResponse) :
    SessionState × Bool × Except AuthError AuthHeaders :=
  if !pyTruthyStr s.session_token || s.is_token_expired now then
    match s.refresh_session_token now resp with
    | (s1, some e) => (s1, true, .error e)
    | (s1, none) =>
      if !pyTruthyStr s1.session_token then
        (s1, true, .error (.authenticationError "Failed to obtain session token"))
      else
        (s1, true, .ok ⟨s1.session_token.getD "", "DXAPI " ++ s1.session_token.getD ""⟩)
  else
    if !pyTruthyStr s.session_token then
      (s, false, .error (.authenticationError "Failed to obtain session token"))
    else
      (s, false, .ok ⟨s.session_token.getD "", "DXAPI " ++ s.session_token.getD ""⟩)

/-- The states the handler actually reaches: never authenticated (all fields
`None`, auth.py lines 197-199), or holding a non-empty token with positive
expiry and login timestamps (set together on lines 252-261). -/
def SessionState.WellFormed (s : SessionState) : Prop :=
  s = ⟨none, none, none⟩ ∨
  ∃ tok e l, s = ⟨some tok, some e, some l⟩ ∧ tok ≠ "" ∧ 0 < e ∧ 0 < l

theorem SessionState.refresh_ok (s : SessionState) (now : ℚ) (resp : LoginResponse)
    (tok : String) (hre : resp.http_error = false)
    (htok : resp.sessionToken = some tok) (htokne : tok ≠ "") :
    s.refresh_session_token now resp =
      (⟨some tok, some (now + 3600 - 300), some now⟩, none) := by
  have hE : tok.isEmpty = false := by
    rw [← Bool.not_eq_true, String.isEmpty_iff]
    exact htokne
  unfold SessionState.refresh_session_token
  simp [hre, htok, pyTruthyStr, hE]

/-- C2: `SessionHandler.authenticate` performs a login exactly when there is
no stored token, or `now ≥ expiresAt`, or `now - lastLogin > 3600`; when a
login happens and the mocked `/login` answers with a non-empty token, the new
expiry is `now + 3600 - 300` and the token is returned in the headers; and any
later `authenticate` call strictly inside the `3300`-second window after a
successful login performs no further login and reuses the cached token. -/
theorem session_login_iff_and_window (s : SessionState) (now : ℚ)
    (resp : LoginResponse) (tok : String) (t tN : ℚ) (resp2 : LoginResponse)
    (hwf : s.WellFormed)
    (hre : resp.http_error = false) (htok : resp.sessionToken = some tok)
    (htokne : tok ≠ "")
    (ht : 0 < t) (htN1 : t ≤ tN) (htN2 : tN < t + 3300) :
    ((s.authenticate now resp).2.1 = true ↔
      (s.session_token = none ∨ s.token_expires_at.getD 0 ≤ now ∨
        3600 < now - s.last_login.getD 0)) ∧
    ((s.authenticate now resp).2.1 = true →
      (s.authenticate now resp).1 = ⟨some tok, some (now + 3600 - 300), some now⟩ ∧
      (s.authenticate now resp).2.2 = .ok ⟨tok, "DXAPI " ++ tok⟩) ∧
    SessionState.authenticate ⟨some tok, some (t + 3600 - 300), some t⟩ tN resp2 =
      (⟨some tok, some (t + 3600 - 300), some t⟩, false, .ok ⟨tok, "DXAPI " ++ tok⟩) := by
  have hE : tok.isEmpty = false := by
    rw [← Bool.not_eq_true, String.isEmpty_iff]
    exact htokne
  have hrefresh := s.refresh_ok now resp tok hre htok htokne
  refine ⟨?_, ?_, ?_⟩
  · rcases hwf with h0 | ⟨tk, e, l, hs, htk, he, hl⟩
    · subst h0
      constructor
      · intro _
        exact Or.inl rfl
      · intro _
        unfold SessionState.authenticate
        simp [pyTruthyStr, hrefresh, hE]
    · subst hs
      have htkE : tk.isEmpty = false := by
        rw [← Bool.not_eq_true, String.isEmpty_iff]
        exact htk
      have heq0 : (e != 0) = true := by
        simp only [bne_iff_ne, ne_eq]
        linarith
      have hlq0 : (l != 0) = true := by
        simp only [bne_iff_ne, ne_eq]
        linarith
      unfold SessionState.authenticate SessionState.is_token_expired
      simp only [pyTruthyStr, pyTruthyFloat, htkE, Bool.not_false, Bool.not_true,
        heq0, hlq0, Bool.or_self, Bool.false_or, Option.getD_some]
      by_cases h1 : 3600 < now - l
      · simp only [if_pos h1, if_pos trivial]
        simp [hrefresh, hE, h1]
      · by_cases h2 : e ≤ now
        · simp only [if_neg h1]
          simp [hrefresh, hE, h2, h1]
        · simp only [if_neg h1]
          simp [hE, h2, h1]
  · intro hlogin
    rcases hwf with h0 | ⟨tk, e, l, hs, htk, he, hl⟩
    · subst h0
      unfold SessionState.authenticate
      simp [pyTruthyStr, hrefresh, hE]
    · subst hs
      have htkE : tk.isEmpty = false := by
        rw [← Bool.not_eq_true, String.isEmpty_iff]
        exact htk
      by_cases hexp : SessionState.is_token_expired ⟨some tk, some e, some l⟩ now = true
      · unfold SessionState.authenticate
        simp [pyTruthyStr, htkE, hexp, hrefresh, hE]
      · exfalso
        unfold SessionState.authenticate at hlogin
        simp [pyTruthyStr, htkE, hexp] at hlogin
  · have hexpF : SessionState.is_token_expired
        ⟨some tok, some (t + 3600 - 300), some t⟩ tN = false := by
      unfold SessionState.is_token_expired
      have he0 : (t + 3600 - 300 != 0) = true := by
        simp only [bne_iff_ne, ne_eq]
        intro h
        linarith
      have hl0 : (t != 0) = true := by
        simp only [bne_iff_ne, ne_eq]
        linarith
      simp only [pyTruthyFloat, he0, hl0, Bool.not_true, Bool.or_self,
        Option.getD_some]
      rw [if_neg (by simp), if_neg (by linarith)]
      simp only [decide_eq_false_iff_not, not_le]
      linarith
    unfold SessionState.authenticate
    simp [pyTruthyStr, hE, hexpF]

/-- Witness for C2: a fresh handler logging in at time 1000 with token
`tok1`, reused at time 2000. -/
theorem session_login_iff_and_window_witness :
    ((SessionState.authenticate ⟨none, none, none⟩ 1000 ⟨false, some "tok1", none⟩).2.1 = true ↔
      ((⟨none, none, none⟩ : SessionState).session_token = none ∨
        (⟨none, none, none⟩ : SessionState).token_expires_at.getD 0 ≤ 1000 ∨
        3600 < 1000 - (⟨none, none, none⟩ : SessionState).last_login.getD 0)) ∧
    ((SessionState.authenticate ⟨none, none, none⟩ 1000 ⟨false, some "tok1", none⟩).2.1 = true →
      (SessionState.authenticate ⟨none, none, none⟩ 1000 ⟨false, some "tok1", none⟩).1 =
        ⟨some "tok1", some (1000 + 3600 - 300), some 1000⟩ ∧
      (SessionState.authenticate ⟨none, none, none⟩ 1000 ⟨false, some "tok1", none⟩).2.2 =
        .ok ⟨"tok1", "DXAPI " ++ "tok1"⟩) ∧
    SessionState.authenticate ⟨some "tok1", some (1000 + 3600 - 300), some 1000⟩ 2000
        ⟨false, none, none⟩ =
      (⟨some "tok1", some (1000 + 3600 - 300), some 1000⟩, false,
        .ok ⟨"tok1", "DXAPI " ++ "tok1"⟩) :=
  session_login_iff_and_window ⟨none, none, none⟩ 1000 ⟨false, some "tok1", none⟩
    "tok1" 1000 2000 ⟨false, none, none⟩ (Or.inl rfl) rfl rfl
    (by decide) (by norm_num) (by norm_num) (by norm_num)

/-! ## DXTradeTransport and the missing `get_session_token` (claim C6)

`DXTradeTransport` (transport.py line 56) sets `self.auth_handler =
SessionHandler(self.credentials)`, the class defined in auth.py lines
182-311. Python resolves `self.auth_handler.get_session_token()` by attribute
lookup on that instance; the lookup set below lists every attribute a
`SessionHandler` instance has: the instance attributes assigned in
`AuthHandler.__init__` and `SessionHandler.__init__` (auth.py lines 36,
196-199) and the methods of `SessionHandler` and its base `AuthHandler`.
`get_session_token` is defined only on the unrelated class in
`core/http_client.py` (line 285), never on `SessionHandler`. -/

def sessionHandlerAttrs : List String :=
  ["credentials", "_session_token", "_token_expires_at", "_last_login",
   "authenticate", "get_auth_type", "_refresh_session_token",
   "_is_token_expired", "logout"]

inductive PyExn
  | attributeError (name : String)
  | other (msg : String)
deriving Repr, DecidableEq

/-- Python attribute lookup on a `SessionHandler` instance: returns the
attribute when defined, raises `AttributeError` otherwise. -/
def sessionHandlerGetattr (name : String) : Except PyExn String :=
  if name ∈ sessionHandlerAttrs then .ok name else .error (.attributeError name)

/-- Network side effects a transport call could perform. -/
inductive NetEvent
  | httpSend (method url : String)
  | wsConnect (url : String)
  | wsSend (payload : String)
deriving Repr, DecidableEq

/-- Embedding of the start of `DXTradeTransport.request` (transport.py lines
163-213). `await self._ensure_session()` only constructs an
`aiohttp.ClientSession`, no network traffic; the next statement (line 182) is
the attribute lookup `self.auth_handler.get_session_token`, which raises
before the URL is built or any request is sent. The `.ok` branch (the
authenticate fallback, URL join, `session.request`, 401 retry of lines
184-213) is unreachable because the lookup always fails, so it is not
elaborated further here. -/
def DXTradeTransport.request (method endpoint : String) :
    Except PyExn Unit × List NetEvent :=
  match sessionHandlerGetattr "get_session_token" with
  | .error e => (.error e, [])
  | .ok _ => (.error (.other "unreachable"), [])

/-- Embedding of the start of `DXTradeTransport._websocket_handler`
(transport.py lines 390-454). The body runs inside `try/except Exception`;
its first statement (line 394) is the same failing attribute lookup, so the
handler logs the caught `AttributeError` and performs no WebSocket connect or
send. Returns the caught exception and the network events. -/
def DXTradeTransport.websocket_handler (channel ws_url : String) :
    Option PyExn × List NetEvent :=
  match sessionHandlerGetattr "get_session_token" with
  | .error e => (some e, [])
  | .ok _ => (none, [])

/-- C6: every `DXTradeTransport.request` call fails with
`AttributeError: get_session_token` before any network request is sent, and
`_websocket_handler` hits the same `AttributeError` (caught by its blanket
`except`) before opening or using any WebSocket. -/
theorem transport_request_attribute_error (method endpoint channel ws_url : String) :
    DXTradeTransport.request method endpoint =
      (.error (.attributeError "get_session_token"), []) ∧
    DXTradeTransport.websocket_handler channel ws_url =
      (some (.attributeError "get_session_token"), []) := by
  constructor <;> rfl

/-! ## IdempotencyManager (src/dxtrade/utils.py, lines 80-154) and the
idempotency slice of `DXtradeHTTPClient.request` (src/dxtrade/http.py,
lines 90-241)

Responses are opaque `HTTPResponse` records; `uuid.uuid4()` draws are
explicit `uuid` arguments; the network is an oracle giving the outcome of
each attempt of the retry loop. -/

structure HTTPResponse where
  status : Nat
  body : String
deriving Repr, DecidableEq

/-- The idempotency cache state (utils.py lines 83-87): response cache,
insertion timestamps, and the fixed 1-hour TTL. -/
structure IdempotencyManager where
  cache : List (String × HTTPResponse)
  timestamps : List (String × ℚ)
  ttl : ℚ
deriving Repr, DecidableEq

def IdempotencyManager.empty : IdempotencyManager := ⟨[], [], 3600⟩

/-- Embedding of `IdempotencyManager.generate_key` (utils.py lines 89-105):
GET requests get no key; every other method gets `str(uuid.uuid4())` — a
fresh random UUID, with the `url` and `data` arguments unused, exactly as in
the source. -/
def pyUpper (s : String) : String := String.mk (s.data.map Char.toUpper)

def IdempotencyManager.generate_key (method url : String) (data : Option String)
    (uuid : String) : String :=
  if pyUpper method = "GET" then "" else uuid

/-- Embedding of `IdempotencyManager.get_cached_response` (utils.py lines
107-129): empty key and missing key give `None`; an expired entry is evicted
and gives `None`; `now` is the `time.time()` read on line 122. -/
def IdempotencyManager.get_cached_response (m : IdempotencyManager) (key : String)
    (now : ℚ) : IdempotencyManager × Option HTTPResponse :=
  if key = "" then (m, none)
  else
    match m.cache.lookup key with
    | none => (m, none)
    | some resp =>
      let ts := (m.timestamps.lookup key).getD 0
      if now - ts < m.ttl then (m, some resp)
      else
        ({ m with cache := m.cache.filter (fun p => p.1 ≠ key),
                  timestamps := m.timestamps.filter (fun p => p.1 ≠ key) }, none)

/-- Embedding of `IdempotencyManager.cache_response` (utils.py lines
131-142); dict assignment is modeled by prepending (lookup takes the first
hit). -/
def IdempotencyManager.cache_response (m : IdempotencyManager) (key : String)
    (resp : HTTPResponse) (now : ℚ) : IdempotencyManager :=
  if key = "" then m
  else { m with cache := (key, resp) :: m.cache,
                timestamps := (key, now) :: m.timestamps }

/-- Outcome of one attempt of the retry loop, as delivered by the network:
an `httpx` timeout, an `httpx` connect error, or a response. -/
inductive NetOutcome
  | raiseTimeout
  | raiseConnect
  | resp (r : HTTPResponse)
deriving Repr, DecidableEq

/-- Errors surfaced by the pipeline (http.py lines 127-130 and 231-241). -/
inductive ReqError
  | rateLimitExceeded
  | timeoutAfter (attempts : Nat)
  | failedAfter (attempts : Nat)
deriving Repr, DecidableEq

/-- Embedding of the retry loop of `DXtradeHTTPClient.request` (http.py lines
164-229). `fuel` is the number of loop iterations still allowed (starting at
`max_retries + 1`); the returned `Nat` counts network sends. A response with
status ≥ 400 makes `_handle_http_error` raise an SDK error, which
`is_retryable_error` (utils.py lines 315-334) classifies as non-retryable, so
the loop breaks; timeouts and connect errors are retryable until the attempts
run out. The error payload records whether the last exception was a timeout
(http.py line 232). -/
def requestLoop (responses : Nat → NetOutcome) (key : String) (now : ℚ) :
    IdempotencyManager → Nat → Nat →
    Except Bool HTTPResponse × IdempotencyManager × Nat
  | idem, _, 0 => (.error false, idem, 0)
  | idem, attempt, fuel + 1 =>
    match responses attempt with
    | .resp r =>
      if 400 ≤ r.status then (.error false, idem, 1)
      else
        let idem1 := if key ≠ "" ∧ 200 ≤ r.status ∧ r.status < 300 then
            idem.cache_response key r now
          else idem
        (.ok r, idem1, 1)
    | .raiseTimeout =>
      if fuel = 0 then (.error true, idem, 1)
      else
        let (res, idem1, cnt) := requestLoop responses key now idem (attempt + 1) fuel
        (res, idem1, cnt + 1)
    | .raiseConnect =>
      if fuel = 0 then (.error false, idem, 1)
      else
        let (res, idem1, cnt) := requestLoop responses key now idem (attempt + 1) fuel
        (res, idem1, cnt + 1)

/-- Embedding of `DXtradeHTTPClient.request` (http.py lines 90-241) along its
idempotency-relevant control flow: optional local rate limiting (lines
125-130), idempotency-key generation when the caller supplied none (lines
132-144, via `IdempotencyManager.generate_key` with the fresh draw `uuid`),
cached-response short-circuit (lines 146-151), then the retry loop. Returns
the result, the updated cache state, and the number of network sends. -/
def DXtradeHTTPClient.request (limiter : Option RateLimiter)
    (idem : IdempotencyManager) (method url : String) (body : Option String)
    (idempotency_key : Option String) (uuid : String) (now : ℚ)
    (max_retries : Nat) (responses : Nat → NetOutcome) :
    Except ReqError HTTPResponse × IdempotencyManager × Nat :=
  let rlErr := match limiter with
    | none => none
    | some rl => (rl.acquire now).2
  match rlErr with
  | some _ => (.error .rateLimitExceeded, idem, 0)
  | none =>
    let key := match idempotency_key with
      | some k => k
      | none => IdempotencyManager.generate_key method url body uuid
    let (idem1, cached) := idem.get_cached_response key now
    match cached with
    | some r => (.ok r, idem1, 0)
    | none =>
      let (res, idem2, cnt) := requestLoop responses key now idem1 0 (max_retries + 1)
      (match res with
       | .ok r => .ok r
       | .error isTimeout =>
         .error (if isTimeout then .timeoutAfter (max_retries + 1)
                 else .failedAfter (max_retries + 1)),
       idem2, cnt)

/-- C3 as stated fails on the code: `IdempotencyManager.generate_key` returns
a fresh random UUID for mutating requests (utils.py line 105), so it is not a
function of (method, url, body hash) — two draws give two different keys —
and repeating an identical POST with no caller-supplied key misses the cache
and performs a second network call (1 send, not 0). -/
theorem http_idempotency_counterexample :
    IdempotencyManager.generate_key "POST" "/orders" none "uuid-1" ≠
      IdempotencyManager.generate_key "POST" "/orders" none "uuid-2" ∧
    (DXtradeHTTPClient.request none
        (DXtradeHTTPClient.request none IdempotencyManager.empty "POST" "/orders"
          none none "uuid-1" 0 3 (fun _ => .resp ⟨200, "ok"⟩)).2.1
        "POST" "/orders" none none "uuid-2" 10 3
        (fun _ => .resp ⟨200, "ok"⟩)).2.2 = 1 := by
  constructor
  · decide
  · rfl

/-- C3 amended: GET requests never get an idempotency key; a mutating request
with no caller-supplied key gets the fresh UUID draw itself as key (so two
identical requests get unrelated keys); and only a caller-supplied key
dedupes — with the same explicit key, a second identical request issued
before the 1-hour TTL expires returns the cached response with zero network
calls. -/
theorem http_idempotency_amended (method url k u : String) (body : Option String)
    (r : HTTPResponse) (now1 now2 : ℚ) (maxR : Nat)
    (responses1 responses2 : Nat → NetOutcome)
    (hk : k ≠ "") (hresp : responses1 0 = .resp r)
    (hs1 : 200 ≤ r.status) (hs2 : r.status < 300)
    (httl : now2 - now1 < 3600) :
    (pyUpper method = "GET" →
      IdempotencyManager.generate_key method url body u = "") ∧
    (pyUpper method ≠ "GET" →
      IdempotencyManager.generate_key method url body u = u) ∧
    (DXtradeHTTPClient.request none IdempotencyManager.empty method url body
        (some k) u now1 maxR responses1).1 = .ok r ∧
    (DXtradeHTTPClient.request none IdempotencyManager.empty method url body
        (some k) u now1 maxR responses1).2.2 = 1 ∧
    DXtradeHTTPClient.request none
        (DXtradeHTTPClient.request none IdempotencyManager.empty method url body
          (some k) u now1 maxR responses1).2.1
        method url body (some k) u now2 maxR responses2 =
      (.ok r,
       (DXtradeHTTPClient.request none IdempotencyManager.empty method url body
          (some k) u now1 maxR responses1).2.1, 0) := by
  have h400 : ¬(400 ≤ r.status) := by omega
  have hfirst : DXtradeHTTPClient.request none IdempotencyManager.empty method url
      body (some k) u now1 maxR responses1 =
      (.ok r, ⟨[(k, r)], [(k, now1)], 3600⟩, 1) := by
    unfold DXtradeHTTPClient.request
    simp only [IdempotencyManager.get_cached_response, IdempotencyManager.empty,
      List.lookup_nil, if_neg hk]
    unfold requestLoop
    rw [hresp]
    simp only [if_neg h400, if_pos (And.intro hk (And.intro hs1 hs2)),
      IdempotencyManager.cache_response, if_neg hk]
  refine ⟨?_, ?_, ?_, ?_, ?_⟩
  · intro hm
    unfold IdempotencyManager.generate_key
    rw [if_pos hm]
  · intro hm
    unfold IdempotencyManager.generate_key
    rw [if_neg hm]
  · rw [hfirst]
  · rw [hfirst]
  · rw [hfirst]
    unfold DXtradeHTTPClient.request
    simp only [IdempotencyManager.get_cached_response, if_neg hk]
    have hlook : List.lookup k [(k, r)] = some r := by
      simp [List.lookup]
    have hlookT : List.lookup k [(k, now1)] = some now1 := by
      simp [List.lookup]
    simp only [hlook, hlookT, Option.getD_some]
    rw [if_pos httl]

/-- Witness for the amended C3 at POST `/orders`, key `key1`,
times 0 and 10. -/
theorem http_idempotency_amended_witness :
    (pyUpper "POST" = "GET" →
      IdempotencyManager.generate_key "POST" "/orders" none "u1" = "") ∧
    (pyUpper "POST" ≠ "GET" →
      IdempotencyManager.generate_key "POST" "/orders" none "u1" = "u1") ∧
    (DXtradeHTTPClient.request none IdempotencyManager.empty "POST" "/orders" none
        (some "key1") "u1" 0 3 (fun _ => .resp ⟨200, "ok"⟩)).1 = .ok ⟨200, "ok"⟩ ∧
    (DXtradeHTTPClient.request none IdempotencyManager.empty "POST" "/orders" none
        (some "key1") "u1" 0 3 (fun _ => .resp ⟨200, "ok"⟩)).2.2 = 1 ∧
    DXtradeHTTPClient.request none
        (DXtradeHTTPClient.request none IdempotencyManager.empty "POST" "/orders" none
          (some "key1") "u1" 0 3 (fun _ => .resp ⟨200, "ok"⟩)).2.1
        "POST" "/orders" none (some "key1") "u1" 10 3 (fun _ => .resp ⟨200, "ok"⟩) =
      (.ok ⟨200, "ok"⟩,
       (DXtradeHTTPClient.request none IdempotencyManager.empty "POST" "/orders" none
          (some "key1") "u1" 0 3 (fun _ => .resp ⟨200, "ok"⟩)).2.1, 0) :=
  http_idempotency_amended "POST" "/orders" "key1" "u1" none ⟨200, "ok"⟩ 0 10 3
    (fun _ => .resp ⟨200, "ok"⟩) (fun _ => .resp ⟨200, "ok"⟩)
    (by decide) rfl (by norm_num) (by norm_num) (by norm_num)

/-! ## DXtradePushClient message handling (src/dxtrade/push.py, lines 319-404)

`EventType` is the enum of models.py lines 100-106. Handlers registered via
`on` are identified by opaque numbers; `_dispatch_event` invokes, in order,
the handlers registered for `EventType(event.type)` (exceptions per handler
are caught and logged, push.py lines 397-404). An inbound frame is summarized
by its parsed `type` field; parsing a frame whose type is not a member of the
enum makes the pydantic validation in `_parse_event` raise, which
`_handle_message` catches and logs (lines 353-354), so nothing is
dispatched. -/

inductive EventType
  | price | order | position | account | heartbeat
deriving Repr, DecidableEq

def EventType.ofString : String → Option EventType
  | "price" => some .price
  | "order" => some .order
  | "position" => some .position
  | "account" => some .account
  | "heartbeat" => some .heartbeat
  | _ => none

/-- Observable outcome of one `_handle_message` call. -/
structure HandleMessageResult where
  dispatched : List Nat
  last_heartbeat : Option ℚ
  ack_handled : Bool
  error_handled : Bool
deriving Repr, DecidableEq

/-- Embedding of `DXtradePushClient._handle_message` (push.py lines 319-354)
together with `_dispatch_event` (lines 388-404): `heartbeat` updates
`_last_heartbeat` and falls through to dispatch as a `HeartbeatEvent`;
`subscription_ack` and `error` return before the dispatch; any other truthy
type goes through `_parse_event` and is dispatched to the handlers of its
event type when the type is a member of the enum, and is dropped (logged
validation error) otherwise. -/
def handle_message (handlers : EventType → List Nat) (lastHb : Option ℚ)
    (now : ℚ) (msgType : Option String) : HandleMessageResult :=
  if !pyTruthyStr msgType then ⟨[], lastHb, false, false⟩
  else
    let t := msgType.getD ""
    if t = "heartbeat" then ⟨handlers .heartbeat, some now, false, false⟩
    else if t = "subscription_ack" then ⟨[], lastHb, true, false⟩
    else if t = "error" then ⟨[], lastHb, false, true⟩
    else
      match EventType.ofString t with
      | some et => ⟨handlers et, lastHb, false, false⟩
      | none => ⟨[], lastHb, false, false⟩

/-- C8 as stated fails on the code: a `heartbeat` frame is not intercepted —
with a handler (id 7) registered for the heartbeat event type,
`_handle_message` builds a `HeartbeatEvent` and dispatches it to that
handler. -/
theorem push_heartbeat_dispatch_counterexample :
    (handle_message
        (fun t => match t with | .heartbeat => [7] | _ => []) none 100
        (some "heartbeat")).dispatched = [7] ∧
    ([7] : List Nat) ≠ [] := by
  constructor
  · rfl
  · decide

/-- C8 amended: `subscription_ack` and `error` frames are intercepted and
never dispatched to registered handlers; a `heartbeat` frame updates the
liveness timestamp and is dispatched to the handlers registered for the
heartbeat event type; every other frame with a truthy type is dispatched to
the handlers of its event type when that type is a member of the event enum,
and dropped otherwise. -/
theorem push_control_intercept_amended (handlers : EventType → List Nat)
    (lastHb : Option ℚ) (now : ℚ) (t : String) :
    (handle_message handlers lastHb now (some "subscription_ack")).dispatched = [] ∧
    (handle_message handlers lastHb now (some "error")).dispatched = [] ∧
    (handle_message handlers lastHb now (some "heartbeat")).dispatched =
      handlers .heartbeat ∧
    (handle_message handlers lastHb now (some "heartbeat")).last_heartbeat =
      some now ∧
    (t ∉ ["heartbeat", "subscription_ack", "error"] → t ≠ "" →
      (handle_message handlers lastHb now (some t)).dispatched =
        match EventType.ofString t with
        | some et => handlers et
        | none => []) := by
  refine ⟨rfl, rfl, rfl, rfl, ?_⟩
  intro h1 h2
  simp only [List.mem_cons, not_or] at h1
  obtain ⟨hhb, hack, herr, -⟩ := h1
  have hE : t.isEmpty = false := by
    rw [← Bool.not_eq_true, String.isEmpty_iff]
    exact h2
  unfold handle_message
  simp only [pyTruthyStr, hE, Bool.not_false, Bool.not_true, Option.getD_some]
  rw [if_neg (by simp), if_neg hhb, if_neg hack, if_neg herr]
  cases EventType.ofString t <;> rfl

/-- Witness for the amended C8: handler 7 on heartbeat, handler 3 on price,
a price frame at time 5. -/
theorem push_control_intercept_amended_witness :
    (handle_message
        (fun t => match t with | .heartbeat => [7] | .price => [3] | _ => [])
        none 5 (some "subscription_ack")).dispatched = [] ∧
    (handle_message
        (fun t => match t with | .heartbeat => [7] | .price => [3] | _ => [])
        none 5 (some "error")).dispatched = [] ∧
    (handle_message
        (fun t => match t with | .heartbeat => [7] | .price => [3] | _ => [])
        none 5 (some "heartbeat")).dispatched =
      (fun t => match t with | EventType.heartbeat => [7] | .price => [3] | _ => [])
        EventType.heartbeat ∧
    (handle_message
        (fun t => match t with | .heartbeat => [7] | .price => [3] | _ => [])
        none 5 (some "heartbeat")).last_heartbeat = some 5 ∧
    ("price" ∉ ["heartbeat", "subscription_ack", "error"] → "price" ≠ "" →
      (handle_message
          (fun t => match t with | .heartbeat => [7] | .price => [3] | _ => [])
          none 5 (some "price")).dispatched =
        match EventType.ofString "price" with
        | some et =>
          (fun t => match t with | EventType.heartbeat => [7] | .price => [3] | _ => []) et
        | none => []) :=
  push_control_intercept_amended
    (fun t => match t with | .heartbeat => [7] | .price => [3] | _ => []) none 5 "price"

/-! ## Reconnect loops (claim C7)

`DXtradePushClient._handle_reconnect` (push.py lines 464-489) runs a `for`
loop over `range(max_retries)`: each iteration sleeps
`calculate_delay(attempt)` then calls `connect()`; success returns
immediately, and falling off the loop sets `_should_reconnect = False`.
`connect()` outcomes are the oracle `outcome`; jitter draws are `us`.
The mid-loop `if self._shutdown: break` is only reachable after
`disconnect()`, which the claim excludes, so the embedding covers the
non-shutdown runs. -/

structure PushReconnectResult where
  sleeps : List ℚ
  connectAttempts : Nat
  reconnected : Bool
  should_reconnect : Bool
deriving Repr, DecidableEq

def pushReconnectLoop (cfg : RetryConfig) (us : Nat → ℚ) (outcome : Nat → Bool) :
    Nat → Nat → PushReconnectResult
  | _, 0 => ⟨[], 0, false, false⟩
  | attempt, fuel + 1 =>
    let d := cfg.calculate_delay attempt (us attempt)
    if outcome attempt then ⟨[d], 1, true, true⟩
    else
      let r := pushReconnectLoop cfg us outcome (attempt + 1) fuel
      ⟨d :: r.sleeps, r.connectAttempts + 1, r.reconnected, r.should_reconnect⟩

/-- Embedding of `DXtradePushClient._handle_reconnect` (push.py lines
464-489); the two flags are `_should_reconnect` and `_shutdown` at entry. -/
def DXtradePushClient.handle_reconnect (cfg : RetryConfig) (us : Nat → ℚ)
    (outcome : Nat → Bool) (should_reconnect shutdown : Bool) :
    PushReconnectResult :=
  if !should_reconnect || shutdown then ⟨[], 0, false, should_reconnect⟩
  else pushReconnectLoop cfg us outcome 0 cfg.max_retries

/-! `DXTradeStreamManager._handle_reconnect` (stream_manager.py lines
533-587) recurses through `do_reconnect`: when the stored
`reconnect_attempts` counter has reached `max_reconnect_attempts` it fires
the terminal `on_error` callback and stops; otherwise it increments the
counter, sleeps `reconnect_delay`, tries to connect, and on failure recurses.
The recursion is driven by the remaining budget
`max_reconnect_attempts - attempts`, made explicit as the `fuel` argument. -/

structure StreamReconnectResult where
  sleeps : Nat
  connectAttempts : Nat
  reconnected : Bool
  terminal_error : Bool
deriving Repr, DecidableEq

def streamReconnectFrom (maxA : Nat) (outcome : Nat → Bool) :
    Nat → StreamReconnectResult
  | 0 => ⟨0, 0, false, true⟩
  | fuel + 1 =>
    if outcome (maxA - (fuel + 1)) then ⟨1, 1, true, false⟩
    else
      let r := streamReconnectFrom maxA outcome fuel
      ⟨r.sleeps + 1, r.connectAttempts + 1, r.reconnected, r.terminal_error⟩

/-- Embedding of `DXTradeStreamManager._handle_reconnect` entered with the
per-connection counter at `attempts`. -/
def DXTradeStreamManager.handle_reconnect (maxA attempts : Nat)
    (outcome : Nat → Bool) : StreamReconnectResult :=
  streamReconnectFrom maxA outcome (maxA - attempts)

theorem pushReconnectLoop_spec (cfg : RetryConfig) (us : Nat → ℚ)
    (outcome : Nat → Bool) (attempt fuel : Nat) :
    (pushReconnectLoop cfg us outcome attempt fuel).connectAttempts ≤ fuel ∧
    (pushReconnectLoop cfg us outcome attempt fuel).sleeps.length =
      (pushReconnectLoop cfg us outcome attempt fuel).connectAttempts ∧
    ((pushReconnectLoop cfg us outcome attempt fuel).reconnected = false →
      (pushReconnectLoop cfg us outcome attempt fuel).should_reconnect = false) := by
  induction fuel generalizing attempt with
  | zero => exact ⟨le_rfl, rfl, fun _ => rfl⟩
  | succ m ih =>
    unfold pushReconnectLoop
    by_cases h : outcome attempt = true
    · simp only [h, if_pos]
      exact ⟨by omega, rfl, fun hc => by cases hc⟩
    · simp only [h, if_neg, not_false_iff]
      obtain ⟨h1, h2, h3⟩ := ih (attempt + 1)
      refine ⟨by simpa using Nat.succ_le_succ h1, ?_, h3⟩
      simpa using h2

theorem streamReconnectFrom_spec (maxA : Nat) (outcome : Nat → Bool)
    (fuel : Nat) :
    (streamReconnectFrom maxA outcome fuel).connectAttempts ≤ fuel ∧
    (streamReconnectFrom maxA outcome fuel).sleeps =
      (streamReconnectFrom maxA outcome fuel).connectAttempts ∧
    ((streamReconnectFrom maxA outcome fuel).reconnected = false →
      (streamReconnectFrom maxA outcome fuel).terminal_error = true) := by
  induction fuel with
  | zero => exact ⟨le_rfl, rfl, fun _ => rfl⟩
  | succ m ih =>
    unfold streamReconnectFrom
    by_cases h : outcome (maxA - (m + 1)) = true
    · rw [if_pos h]
      exact ⟨Nat.succ_le_succ (Nat.zero_le m), rfl, fun hc => by cases hc⟩
    · simp only [h, if_neg, not_false_iff]
      obtain ⟨h1, h2, h3⟩ := ih
      exact ⟨by simpa using Nat.succ_le_succ h1, by simpa using h2, h3⟩

/-- C7: both reconnect loops are bounded and terminate rather than retrying
forever. The push client performs at most `max_retries` connect attempts,
with one backoff sleep per attempt, and exhausting them leaves
`_should_reconnect = false`; the stream manager performs at most
`max_reconnect_attempts` connect attempts (at most the remaining budget when
entered with a nonzero counter), with one sleep per attempt, and exhausting
them reports the terminal error through the registered `on_error` callback. -/
theorem reconnect_attempts_bounded (cfg : RetryConfig) (us : Nat → ℚ)
    (outcome1 : Nat → Bool) (maxA attempts : Nat) (outcome2 : Nat → Bool) :
    (DXtradePushClient.handle_reconnect cfg us outcome1 true false).connectAttempts ≤
      cfg.max_retries ∧
    (DXtradePushClient.handle_reconnect cfg us outcome1 true false).sleeps.length =
      (DXtradePushClient.handle_reconnect cfg us outcome1 true false).connectAttempts ∧
    ((DXtradePushClient.handle_reconnect cfg us outcome1 true false).reconnected = false →
      (DXtradePushClient.handle_reconnect cfg us outcome1 true false).should_reconnect
        = false) ∧
    (DXTradeStreamManager.handle_reconnect maxA attempts outcome2).connectAttempts ≤
      maxA ∧
    (DXTradeStreamManager.handle_reconnect maxA attempts outcome2).sleeps =
      (DXTradeStreamManager.handle_reconnect maxA attempts outcome2).connectAttempts ∧
    ((DXTradeStreamManager.handle_reconnect maxA attempts outcome2).reconnected = false →
      (DXTradeStreamManager.handle_reconnect maxA attempts outcome2).terminal_error
        = true) := by
  have hpushEq : DXtradePushClient.handle_reconnect cfg us outcome1 true false =
      pushReconnectLoop cfg us outcome1 0 cfg.max_retries := by
    unfold DXtradePushClient.handle_reconnect
    rfl
  obtain ⟨p1, p2, p3⟩ := pushReconnectLoop_spec cfg us outcome1 0 cfg.max_retries
  obtain ⟨s1, s2, s3⟩ := streamReconnectFrom_spec maxA outcome2 (maxA - attempts)
  rw [hpushEq]
  unfold DXTradeStreamManager.handle_reconnect
  exact ⟨p1, p2, p3, le_trans s1 (Nat.sub_le _ _), s2, s3⟩

/-- Witness for C7: default retry config, all connect attempts failing,
stream budget 5 entered with counter 0. -/
theorem reconnect_attempts_bounded_witness :
    (DXtradePushClient.handle_reconnect ⟨3, 3/10, 60, 2, false⟩ (fun _ => 0)
        (fun _ => false) true false).connectAttempts ≤ 3 ∧
    (DXtradePushClient.handle_reconnect ⟨3, 3/10, 60, 2, false⟩ (fun _ => 0)
        (fun _ => false) true false).sleeps.length =
      (DXtradePushClient.handle_reconnect ⟨3, 3/10, 60, 2, false⟩ (fun _ => 0)
        (fun _ => false) true false).connectAttempts ∧
    ((DXtradePushClient.handle_reconnect ⟨3, 3/10, 60, 2, false⟩ (fun _ => 0)
        (fun _ => false) true false).reconnected = false →
      (DXtradePushClient.handle_reconnect ⟨3, 3/10, 60, 2, false⟩ (fun _ => 0)
        (fun _ => false) true false).should_reconnect = false) ∧
    (DXTradeStreamManager.handle_reconnect 5 0 (fun _ => false)).connectAttempts ≤ 5 ∧
    (DXTradeStreamManager.handle_reconnect 5 0 (fun _ => false)).sleeps =
      (DXTradeStreamManager.handle_reconnect 5 0 (fun _ => false)).connectAttempts ∧
    ((DXTradeStreamManager.handle_reconnect 5 0 (fun _ => false)).reconnected = false →
      (DXTradeStreamManager.handle_reconnect 5 0 (fun _ => false)).terminal_error
        = true) :=
  reconnect_attempts_bounded ⟨3, 3/10, 60, 2, false⟩ (fun _ => 0) (fun _ => false)
    5 0 (fun _ => false)

/-! ## Concurrent session refresh (claim C10)

`DXtradeHTTPClient.__init__` constructs `self._session_lock = asyncio.Lock()`
(http.py line 76), but that lock is never acquired anywhere in the
repository, and `SessionHandler.authenticate` (auth.py lines 201-228) runs
its token/expiry check and `_refresh_session_token` with no guard. Two
concurrent callers of `authenticate` on the same handler interleave at the
`await client.post("/login", ...)` suspension point inside
`_refresh_session_token` (auth.py line 246): the synchronous prefix — the
expiry check plus issuing the POST — is one atomic step, and applying the
response is another. A scheduler is a list of task indices. -/

inductive TaskPhase
  | ready
  | awaitingLogin
  | doneTask (loggedIn : Bool)
deriving Repr, DecidableEq

structure ConcurrentState where
  session : SessionState
  phases : List TaskPhase
  loginCount : Nat
deriving Repr, DecidableEq

/-- One scheduler step: run task `i` up to its next suspension point.
A `ready` task evaluates `not self._session_token or
self._is_token_expired()` (auth.py line 219) against the shared state; if a
login is needed it sends `POST /login` (counted) and suspends, otherwise it
finishes using the cached token. An `awaitingLogin` task resumes with the
login response and applies `_refresh_session_token`'s assignments to the
shared state. -/
def concurrentStep (now : ℚ) (resp : LoginResponse) (st : ConcurrentState)
    (i : Nat) : ConcurrentState :=
  match st.phases.get? i with
  | some .ready =>
    if !pyTruthyStr st.session.session_token || st.session.is_token_expired now then
      { st with phases := st.phases.set i .awaitingLogin,
                loginCount := st.loginCount + 1 }
    else
      { st with phases := st.phases.set i (.doneTask false) }
  | some .awaitingLogin =>
    { st with session := (st.session.refresh_session_token now resp).1,
              phases := st.phases.set i (.doneTask true) }
  | some (.doneTask _) => st
  | none => st

def concurrentRun (now : ℚ) (resp : LoginResponse) (st : ConcurrentState)
    (schedule : List Nat) : ConcurrentState :=
  schedule.foldl (concurrentStep now resp) st

/-- C10 as stated fails on the code: with the session expired (never
authenticated) and two concurrent `authenticate` callers, the interleaving in
which both callers run their expiry check before either login response is
applied issues two logins, not exactly one — nothing makes the second caller
wait for the in-flight refresh. -/
theorem concurrent_refresh_counterexample :
    (concurrentRun 1000 ⟨false, some "tok1", none⟩
        ⟨⟨none, none, none⟩, [.ready, .ready], 0⟩ [0, 1, 0, 1]).loginCount = 2 := by
  have hE : ("tok1").isEmpty = false := by decide
  norm_num [concurrentRun, List.foldl, concurrentStep, pyTruthyStr, pyTruthyFloat,
    SessionState.is_token_expired, SessionState.refresh_session_token, hE]

/-- C10 amended: the session refresh is not guarded — `_session_lock` is
constructed but never acquired — so two concurrent requests that both observe
the missing/expired token each issue their own login (two logins under the
overlapping interleaving), while a caller that only runs after a completed
refresh observes the fresh token and issues none (the fully sequential
interleaving of the same two callers performs exactly one login). -/
theorem concurrent_refresh_unguarded :
    (concurrentRun 1000 ⟨false, some "tok1", none⟩
        ⟨⟨none, none, none⟩, [.ready, .ready], 0⟩ [0, 1, 0, 1]).loginCount = 2 ∧
    (concurrentRun 1000 ⟨false, some "tok1", none⟩
        ⟨⟨none, none, none⟩, [.ready, .ready], 0⟩ [0, 0, 1, 1]).loginCount = 1 ∧
    (concurrentRun 1000 ⟨false, some "tok1", none⟩
        ⟨⟨none, none, none⟩, [.ready, .ready], 0⟩ [0, 0, 1, 1]).phases =
      [.doneTask true, .doneTask false] := by
  have hE : ("tok1").isEmpty = false := by decide
  refine ⟨?_, ?_, ?_⟩ <;>
    norm_num [concurrentRun, List.foldl, concurrentStep, pyTruthyStr, pyTruthyFloat,
      SessionState.is_token_expired, SessionState.refresh_session_token, hE]

/-! ## Application-level ping keepalive (claim C1)

`DXTradeTransport._handle_ping_pong` (transport.py lines 456-533) answers a
parsed `{"type": "PingRequest"}` dict with exactly one JSON message
`{"type": "Ping", "session": <token>, "timestamp": <ts>}` and a string
variant (`"pingrequest"`/`"ping_request"` after lowercasing) with the bare
string `"Ping"`, returning `True` so `_websocket_handler` (line 433) skips
the user callback. The timestamp is
`datetime.now().strftime("%Y-%m-%dT%H:%M:%S.%fZ")[:-3] + "Z"`
(line 488), embedded below over a record of the local-time fields, with `%f`
the 6-digit zero-padded microseconds. -/

structure PyDatetime where
  year : Nat
  month : Nat
  day : Nat
  hour : Nat
  minute : Nat
  second : Nat
  microsecond : Nat
deriving Repr, DecidableEq

/-- Zero-padding to width `n`, as strftime does for each directive. -/
def zfill (n : Nat) (v : Nat) : String :=
  let s := toString v
  String.mk (List.replicate (n - s.length) '0') ++ s

/-- `dt.strftime("%Y-%m-%dT%H:%M:%S.%fZ")`. -/
def strftimePingFormat (dt : PyDatetime) : String :=
  zfill 4 dt.year ++ "-" ++ zfill 2 dt.month ++ "-" ++ zfill 2 dt.day ++ "T" ++
  zfill 2 dt.hour ++ ":" ++ zfill 2 dt.minute ++ ":" ++ zfill 2 dt.second ++
  "." ++ zfill 6 dt.microsecond ++ "Z"

/-- The timestamp put in the Ping reply (transport.py line 488):
`strftime(...)[:-3] + "Z"`, with Python `[:-3]` as `dropRight 3`. -/
def pingTimestamp (dt : PyDatetime) : String :=
  (strftimePingFormat dt).dropRight 3 ++ "Z"

/-- Count of fractional-second digits in a timestamp string that ends in
`Z`: the run of digits just before the final character. -/
def fracSecondDigits (s : String) : Nat :=
  ((s.data.reverse.drop 1).takeWhile Char.isDigit).length

/-- An inbound stream message after the JSON-parse step of
`_websocket_handler` (transport.py lines 423-430): a dict summarized by its
`type` field, or a plain string. -/
inductive WsData
  | jsonObj (type : Option String)
  | strMsg (s : String)
deriving Repr, DecidableEq

structure PingMessage where
  type : String
  session : String
  timestamp : String
deriving Repr, DecidableEq

inductive WsSend
  | jsonPing (m : PingMessage)
  | text (s : String)
deriving Repr, DecidableEq

def pyLower (s : String) : String := String.mk (s.data.map Char.toLower)

/-- Embedding of `DXTradeTransport._handle_ping_pong` (transport.py lines
456-533): returns whether the message was handled and the messages sent on
the connection; `dt` is the `datetime.now()` read. Ping statistics updates
are omitted as they do not affect the reply or the forwarding decision. -/
def handle_ping_pong (data : WsData) (token : String) (dt : PyDatetime) :
    Bool × List WsSend :=
  match data with
  | .jsonObj t =>
    if t = some "PingRequest" then
      (true, [.jsonPing ⟨"Ping", token, pingTimestamp dt⟩])
    else (false, [])
  | .strMsg s =>
    if pyLower s = "pingrequest" ∨ pyLower s = "ping_request" then
      (true, [.text "Ping"])
    else (false, [])

/-- The forwarding decision of `_websocket_handler` (transport.py lines
432-442): a handled ping is not forwarded to the user callback. -/
def websocket_forward (data : WsData) (token : String) (dt : PyDatetime) :
    List WsSend × Bool :=
  let (handled, sends) := handle_ping_pong data token dt
  (sends, !handled)

/-- C1: evaluating the ping handler at a `PingRequest` received at local time
2024-01-02 03:04:05.123456. Exactly one reply is sent and the message is not
forwarded — but the reply timestamp is `2024-01-02T03:04:05.1234Z`, which has
four fractional-second digits, not the three (millisecond precision) that the
claim and the source comment (`ISO format with milliseconds`, transport.py
line 488) require: the trailing `Z` inside the strftime format shifts the
`[:-3]` truncation. The string-variant reply is the bare `"Ping"`. -/
theorem ping_reply_timestamp_not_milliseconds :
    handle_ping_pong (.jsonObj (some "PingRequest")) "tok"
        ⟨2024, 1, 2, 3, 4, 5, 123456⟩ =
      (true, [.jsonPing ⟨"Ping", "tok", "2024-01-02T03:04:05.1234Z"⟩]) ∧
    websocket_forward (.jsonObj (some "PingRequest")) "tok"
        ⟨2024, 1, 2, 3, 4, 5, 123456⟩ =
      ([.jsonPing ⟨"Ping", "tok", "2024-01-02T03:04:05.1234Z"⟩], false) ∧
    fracSecondDigits (pingTimestamp ⟨2024, 1, 2, 3, 4, 5, 123456⟩) = 4 ∧
    handle_ping_pong (.strMsg "PingRequest") "tok" ⟨2024, 1, 2, 3, 4, 5, 123456⟩ =
      (true, [.text "Ping"]) := by
  refine ⟨?_, ?_, ?_, ?_⟩ <;> decide

/-! ## HMAC authentication (claim C4)

`HMACHandler.authenticate` (auth.py lines 124-171) calls
`hmac.new(secret, message, hashlib.sha256)` and base64-encodes the digest.
SHA-256 (FIPS 180-4), HMAC (RFC 2104) and base64 (RFC 4648) are implemented
below over byte lists; strings are taken to their byte sequences with
`asciiBytes`, which coincides with Python `.encode("utf-8")` on the ASCII
inputs involved. 32-bit arithmetic is `Nat` arithmetic reduced `% 2^32`. -/

def M32 : Nat := 4294967296
def add32 (a b : Nat) : Nat := (a + b) % M32
def rotr32 (n x : Nat) : Nat := ((x >>> n) ||| (x <<< (32 - n))) % M32

def toBytesBE (n : Nat) (v : Nat) : List Nat :=
  (List.range n).reverse.map (fun i => (v >>> (8 * i)) % 256)

def bytesToWords : List Nat → List Nat
  | b0 :: b1 :: b2 :: b3 :: rest =>
    ((((b0 <<< 8) ||| b1) <<< 8 ||| b2) <<< 8 ||| b3) :: bytesToWords rest
  | _ => []

/-- SHA-256 padding: `0x80`, zeros to 56 mod 64, 8-byte big-endian bit
length. -/
def sha256Pad (msg : List Nat) : List Nat :=
  let len := msg.length
  let k := (56 + 64 - (len + 1) % 64) % 64
  msg ++ [128] ++ List.replicate k 0 ++ toBytesBE 8 (8 * len)

def sha256Blocks (padded : List Nat) : List (List Nat) :=
  (List.range (padded.length / 64)).map (fun i => (padded.drop (64 * i)).take 64)

def smallSigma0 (x : Nat) : Nat := rotr32 7 x ^^^ rotr32 18 x ^^^ (x >>> 3)
def smallSigma1 (x : Nat) : Nat := rotr32 17 x ^^^ rotr32 19 x ^^^ (x >>> 10)
def bigSigma0 (x : Nat) : Nat := rotr32 2 x ^^^ rotr32 13 x ^^^ rotr32 22 x
def bigSigma1 (x : Nat) : Nat := rotr32 6 x ^^^ rotr32 11 x ^^^ rotr32 25 x
def chFn (x y z : Nat) : Nat := (x &&& y) ^^^ ((x ^^^ 4294967295) &&& z)
def majFn (x y z : Nat) : Nat := (x &&& y) ^^^ (x &&& z) ^^^ (y &&& z)

/-- Extend the 16 message-schedule words by `n` further words. -/
def extendSchedule (w : List Nat) : Nat → List Nat
  | 0 => w
  | n + 1 =>
    let w1 := extendSchedule w n
    let len := w1.length
    w1 ++ [add32 (add32 (smallSigma1 (w1.getD (len - 2) 0)) (w1.getD (len - 7) 0))
           (add32 (smallSigma0 (w1.getD (len - 15) 0)) (w1.getD (len - 16) 0))]

def sha256K : List Nat :=
  [1116352408, 1899447441, 3049323471, 3921009573, 961987163, 1508970993,
   2453635748, 2870763221, 3624381080, 310598401, 607225278, 1426881987,
   1925078388, 2162078206, 2614888103, 3248222580, 3835390401, 4022224774,
   264347078, 604807628, 770255983, 1249150122, 1555081692, 1996064986,
   2554220882, 2821834349, 2952996808, 3210313671, 3336571891, 3584528711,
   113926993, 338241895, 666307205, 773529912, 1294757372, 1396182291,
   1695183700, 1986661051, 2177026350, 2456956037, 2730485921, 2820302411,
   3259730800, 3345764771, 3516065817, 3600352804, 4094571909, 275423344,
   430227734, 506948616, 659060556, 883997877, 958139571, 1322822218,
   1537002063, 1747873779, 1955562222, 2024104815, 2227730452, 2361852424,
   2428436474, 2756734187, 3204031479, 3329325298]

def sha256H0 : List Nat :=
  [1779033703, 3144134277, 1013904242, 2773480762, 1359893119, 2600822924,
   528734635, 1541459225]

def roundFn (st : List Nat) (kw : Nat × Nat) : List Nat :=
  match st with
  | [a, b, c, d, e, f, g, h] =>
    let t1 := add32 h (add32 (bigSigma1 e) (add32 (chFn e f g) (add32 kw.1 kw.2)))
    let t2 := add32 (bigSigma0 a) (majFn a b c)
    [add32 t1 t2, a, b, c, add32 d t1, e, f, g]
  | other => other

def compressBlock (hs : List Nat) (block : List Nat) : List Nat :=
  let w := extendSchedule (bytesToWords block) 48
  let st := (sha256K.zip w).foldl roundFn hs
  (hs.zip st).map (fun p => add32 p.1 p.2)

def sha256 (msg : List Nat) : List Nat :=
  (((sha256Blocks (sha256Pad msg)).foldl compressBlock sha256H0).map
    (toBytesBE 4)).flatten

/-- HMAC-SHA256 (RFC 2104), block size 64, as computed by Python
`hmac.new(key, msg, hashlib.sha256)`. -/
def hmacSha256 (key msg : List Nat) : List Nat :=
  let key1 := if 64 < key.length then sha256 key else key
  let key2 := key1 ++ List.replicate (64 - key1.length) 0
  let ipad := key2.map (fun b => b ^^^ 0x36)
  let opad := key2.map (fun b => b ^^^ 0x5c)
  sha256 (opad ++ sha256 (ipad ++ msg))

def asciiBytes (s : String) : List Nat := s.data.map Char.toNat

def base64Chars : List Char :=
  "ABCDEFGHIJKLMNOPQRSTUVWXYZabcdefghijklmnopqrstuvwxyz0123456789+/".data

def b64c (i : Nat) : Char := base64Chars.getD i 'A'

/-- Standard base64 with padding, as computed by Python
`base64.b64encode`. -/
def b64encode : List Nat → String
  | [] => ""
  | [b0] =>
    let n := b0 <<< 16
    String.mk [b64c ((n >>> 18) &&& 63), b64c ((n >>> 12) &&& 63)] ++ "=="
  | [b0, b1] =>
    let n := (b0 <<< 16) ||| (b1 <<< 8)
    String.mk [b64c ((n >>> 18) &&& 63), b64c ((n >>> 12) &&& 63),
               b64c ((n >>> 6) &&& 63)] ++ "="
  | b0 :: b1 :: b2 :: rest =>
    let n := (b0 <<< 16) ||| (b1 <<< 8) ||| b2
    String.mk [b64c ((n >>> 18) &&& 63), b64c ((n >>> 12) &&& 63),
               b64c ((n >>> 6) &&& 63), b64c (n &&& 63)] ++ b64encode rest

/-- Digest of the NIST test vector input `"abc"`: the implementation above
equals the official SHA-256 value, pinning it as the standard function the
source calls through `hashlib.sha256`. -/
theorem sha256_test_vector :
    sha256 (asciiBytes "abc") =
      [0xba, 0x78, 0x16, 0xbf, 0x8f, 0x01, 0xcf, 0xea, 0x41, 0x41, 0x40, 0xde,
       0x5d, 0xae, 0x22, 0x23, 0xb0, 0x03, 0x61, 0xa3, 0x96, 0x17, 0x7a, 0x9c,
       0xb4, 0x10, 0xff, 0x61, 0xf2, 0x00, 0x15, 0xad] := by
  decide

/-- Credentials of `HMACHandler` (models.py via auth.py lines 111-122). -/
structure HMACCredentials where
  api_key : String
  secret_key : String
  passphrase : Option String
deriving Repr, DecidableEq

/-- The parts of an `httpx.Request` that `HMACHandler.authenticate` reads:
method, URL path, URL query and the decoded body (empty when there is no
content). -/
structure PyRequest where
  method : String
  path : String
  query : String
  content : String
deriving Repr, DecidableEq

/-- The signature string assembled on auth.py lines 140-153:
`timestamp + method.upper() + path (+ "?" + query) + body`, with the
passphrase appended when it is truthy. -/
def HMACHandler.signature_string (req : PyRequest) (passphrase : Option String)
    (timestamp : String) : String :=
  let path := if req.query ≠ "" then req.path ++ "?" ++ req.query else req.path
  let base := timestamp ++ pyUpper req.method ++ path ++ req.content
  if pyTruthyStr passphrase then base ++ passphrase.getD "" else base

/-- Embedding of `HMACHandler.authenticate` (auth.py lines 124-171): the
headers added to the request, in order. `timestamp` is the
`str(int(time.time() * 1000))` read on line 138, passed explicitly. -/
def HMACHandler.authenticate (creds : HMACCredentials) (req : PyRequest)
    (timestamp : String) : List (String × String) :=
  let sigStr := HMACHandler.signature_string req creds.passphrase timestamp
  let signature := b64encode (hmacSha256 (asciiBytes creds.secret_key)
    (asciiBytes sigStr))
  let hs := [("DX-API-KEY", creds.api_key), ("DX-API-TIMESTAMP", timestamp),
             ("DX-API-SIGNATURE", signature)]
  if pyTruthyStr creds.passphrase then
    hs ++ [("DX-API-PASSPHRASE", creds.passphrase.getD "")]
  else hs

/-- Reference signature written directly from the spec formula:
`base64(HMAC_SHA256(secretKey, timestamp + uppercased method +
path(+"?"+query) + body (+passphrase)))`, assembled in one expression for
comparison with the handler pipeline. -/
def referenceSignature (secretKey timestamp method path query body : String)
    (passphrase : Option String) : String :=
  b64encode (hmacSha256 (asciiBytes secretKey)
    (asciiBytes (timestamp ++ pyUpper method ++
      (if query ≠ "" then path ++ "?" ++ query else path) ++ body ++
      (match passphrase with | some p => p | none => ""))))

set_option maxRecDepth 100000 in
/-- C4: for fixed (secretKey, method, path, query, body, passphrase,
timestamp), `HMACHandler.authenticate` deterministically sets exactly the
headers `DX-API-KEY`, `DX-API-TIMESTAMP` and `DX-API-SIGNATURE`, plus
`DX-API-PASSPHRASE` exactly when a (non-empty) passphrase is configured; the
signature value equals the reference
`base64(HMAC_SHA256(secretKey, timestamp + uppercased method + path(+query) +
body (+passphrase)))` assembled directly from the spec formula, and at a
concrete input it equals the value computed independently with
`openssl dgst -sha256 -hmac`. -/
theorem hmac_headers_and_reference (creds : HMACCredentials) (req : PyRequest)
    (ts : String) :
    HMACHandler.authenticate creds req ts =
      [("DX-API-KEY", creds.api_key), ("DX-API-TIMESTAMP", ts),
       ("DX-API-SIGNATURE", referenceSignature creds.secret_key ts req.method
          req.path req.query req.content creds.passphrase)] ++
      (if pyTruthyStr creds.passphrase then
        [("DX-API-PASSPHRASE", creds.passphrase.getD "")] else []) ∧
    HMACHandler.authenticate ⟨"k", "secret", none⟩
        ⟨"get", "/api/v1", "a=1", "body"⟩ "1700000000000" =
      [("DX-API-KEY", "k"), ("DX-API-TIMESTAMP", "1700000000000"),
       ("DX-API-SIGNATURE", "sjGQCXnzpok9GpgigdCS0T0fR/6JhBk5D+X2y3Sr9o8=")] := by
  constructor
  · unfold HMACHandler.authenticate HMACHandler.signature_string referenceSignature
    cases hp : creds.passphrase with
    | none => simp [pyTruthyStr]
    | some p =>
      by_cases hpe : p = ""
      · subst hpe
        have h0 : ("" : String).isEmpty = true := rfl
        simp [pyTruthyStr, h0]
      · have hpE : p.isEmpty = false := by
          rw [← Bool.not_eq_true, String.isEmpty_iff]
          exact hpe
        simp [pyTruthyStr, hpE]
  · decide
